import Mathlib

/-
Verification development for the random-variable node-construction and
shape-inference engine (`aesara/tensor/random/op.py`).

Symbolic dimension expressions are modelled by the inductive type `Dim`:
a dimension is either a literal constant (`Dim.lit`), an opaque symbolic
scalar (`Dim.sym`), or a symbolic maximum produced by broadcasting two
dimensions neither of which is statically known (`Dim.dmax`).  A parameter
variable is represented by its symbolic shape (`Param`), in which a
dimension entry is `Dim.lit 1` exactly when the corresponding
`broadcastable` flag of the variable is set (this is what `shape_tuple`
produces for such dimensions).

Python exceptions are modelled with `Except Err`; `Err` distinguishes the
exception classes raised by the code (`TypeError`, `ValueError`,
`IndexError`, `AttributeError`).
-/

set_option autoImplicit false

/-- A symbolic dimension-size expression. -/
inductive Dim where
  | lit : Nat → Dim
  | sym : Nat → Dim
  | dmax : Dim → Dim → Dim
deriving DecidableEq, Repr

/-- A (symbolic) shape: an ordered list of dimension expressions. -/
abbrev Shape := List Dim

/-- A distribution parameter, represented by its symbolic shape.  A
dimension reads `Dim.lit 1` exactly when the underlying variable's
`broadcastable` flag is set for that axis. -/
abbrev Param := List Dim

/-- The exception classes raised by the embedded code. -/
inductive Err where
  | typeError : String → Err
  | valueError : String → Err
  | indexError : Err
  | attributeError : Err
deriving DecidableEq, Repr

/-- The `broadcastable` flag vector of a parameter variable: an axis is
broadcastable exactly when its static shape entry is the literal `1`. -/
def broadcastable (p : Param) : List Bool :=
  p.map (fun d => decide (d = Dim.lit 1))

/-- Modelled from the spec: `shape_tuple` (from `aesara.tensor.shape`, not
under `src/`) returns the tuple of symbolic shape entries of a variable,
with a constant `1` for every broadcastable axis.  In this embedding a
parameter is already represented by exactly that tuple. -/
def shape_tuple (p : Param) : Shape := p

/-- Modelled from the spec: one axis step of the broadcast-shape resolver
(section 4.2): `1` broadcasts against anything; two equal non-`1` sizes
resolve to that size; two distinct non-`1` literal sizes are a shape
mismatch error; otherwise the result is a symbolic maximum. -/
def bcastDim (x y : Dim) : Except Err Dim :=
  if x = Dim.lit 1 then .ok y
  else if y = Dim.lit 1 then .ok x
  else
    match x, y with
    | Dim.lit a, Dim.lit b =>
        if a = b then .ok (Dim.lit a)
        else .error (.valueError "Could not broadcast dimensions")
    | _, _ => .ok (Dim.dmax x y)

/-- Axis-wise monadic zip of two equal-length shapes with `bcastDim`. -/
def zipBcast : List Dim → List Dim → Except Err (List Dim)
  | [], _ => .ok []
  | _, [] => .ok []
  | a :: as, b :: bs => do
    let c ← bcastDim a b
    let cs ← zipBcast as bs
    return c :: cs

/-- Modelled from the spec: `broadcast_shape_iter` (from
`aesara.tensor.extra_ops`, not under `src/`), section 4.2: right-align all
shapes on their trailing dimension, treat missing leading entries as `1`,
and resolve each axis with `bcastDim`.  Output rank is the maximum input
rank. -/
def broadcast_shape_iter (shapes : List Shape) : Except Err Shape :=
  let maxLen := shapes.foldl (fun m s => max m s.length) 0
  let padded := shapes.map (fun s => List.replicate (maxLen - s.length) (Dim.lit 1) ++ s)
  padded.foldlM (fun acc s => zipBcast acc s) (List.replicate maxLen (Dim.lit 1))

/-- Modelled from the spec: `params_broadcast_shapes` (from
`aesara.tensor.random.utils`, not under `src/`).  Each parameter's shape is
split into a batch prefix (all but the trailing `ndim_param` dimensions)
and its intrinsic trailing part; the batch prefixes are broadcast together
(section 4.2) and the common batch shape is prepended to each parameter's
intrinsic trailing dimensions. -/
def params_broadcast_shapes (param_shapes : List Shape) (ndims_params : List Nat) :
    Except Err (List Shape) := do
  let batch := List.zipWith (fun (ps : Shape) (n : Nat) => ps.take (ps.length - n))
      param_shapes ndims_params
  let extra_dims ← broadcast_shape_iter batch
  return List.zipWith (fun (ps : Shape) (n : Nat) => extra_dims ++ ps.drop (ps.length - n))
      param_shapes ndims_params

/-- Embeds `default_shape_from_params` (`op.py` lines 21-75).  With
`param_shapes` supplied, the code returns the one-element tuple
`(ref_param[-ndim_supp],)`; a Python negative index out of range raises
`IndexError`.  Without `param_shapes`, it checks `ref_param.ndim` against
`ndim_supp` (raising the `ValueError` shape error) and returns the trailing
`ndim_supp` dimensions `ref_param.shape[-ndim_supp:]`. -/
def default_shape_from_params (ndim_supp : Nat) (dist_params : List Param)
    (rep_param_idx : Nat) (param_shapes : Option (List Shape)) : Except Err Shape :=
  if ndim_supp = 0 then .error (.valueError "ndim_supp must be greater than 0")
  else
    match param_shapes with
    | some pss =>
      match pss[rep_param_idx]? with
      | none => .error .indexError
      | some ref_param =>
        if ndim_supp ≤ ref_param.length then
          .ok [ref_param.getD (ref_param.length - ndim_supp) (Dim.lit 0)]
        else .error .indexError
    | none =>
      match dist_params[rep_param_idx]? with
      | none => .error .indexError
      | some ref_param =>
        if ref_param.length < ndim_supp then
          .error (.valueError "Reference parameter does not match the expected dimensions")
        else .ok (ref_param.drop (ref_param.length - ndim_supp))

/-- The `RandomVariable` `Op` record (its `__props__` plus the
`destroy_map` attribute set by `__init__`). -/
structure RandomVariable where
  name : String
  ndim_supp : Nat
  ndims_params : List Nat
  dtype : Option String
  inplace : Bool
  destroy_map : Option (List (Nat × List Nat))
deriving DecidableEq, Repr

/-- Embeds the inner `slice_ind_dims` of `RandomVariable._infer_shape`
(`op.py` lines 200-214), restricted to the independent-dimension shape it
returns (the sliced parameter value is never consumed downstream).  For
`n = 0` the independent shape is the full broadcast shape; otherwise it is
`shape[:-n]` zipped with `p.broadcastable[:-n]` (Python `zip` truncates to
the shorter argument), replacing broadcastable entries by the constant
`1`. -/
def slice_ind_dims (p : Param) (ps : Shape) (n : Nat) : Shape :=
  if n = 0 then ps
  else
    (List.zip (ps.take (ps.length - n)) ((broadcastable p).take (p.length - n))).map
      (fun sb => if sb.2 then Dim.lit 1 else sb.1)

/-- Embeds `RandomVariable._shape_from_params` (`op.py` lines 145-152): it
delegates to `default_shape_from_params` with `rep_param_idx = 0`. -/
def RandomVariable.shape_from_params (op : RandomVariable) (dist_params : List Param)
    (param_shapes : Option (List Shape)) : Except Err Shape :=
  default_shape_from_params op.ndim_supp dist_params 0 param_shapes

/-- Embeds `RandomVariable._infer_shape` (`op.py` lines 162-268): the
scalar-with-size early return, parameter broadcasting, independent-
dimension slicing, support-shape computation and the final concatenation
`shape_reps ++ shape_ind ++ shape_supp`. -/
def RandomVariable.infer_shape (op : RandomVariable) (size : Shape)
    (dist_params : List Param) (param_shapes : Option (List Shape)) : Except Err Shape :=
  if op.ndim_supp = 0 ∧ 0 < size.length then .ok size
  else
    let pshapes0 : List Shape :=
      match param_shapes with
      | some ps => if ps.isEmpty then dist_params.map shape_tuple else ps
      | none => dist_params.map shape_tuple
    match params_broadcast_shapes pshapes0 op.ndims_params with
    | .error e => .error e
    | .ok pshapes =>
      let indShapes : List Shape :=
        (List.zip (List.zip dist_params pshapes) op.ndims_params).map
          (fun x => slice_ind_dims x.1.1 x.1.2 x.2)
      let step : Except Err (Shape × Nat) :=
        if indShapes.length = 1 then
          .ok (indShapes.headD [], (indShapes.headD []).length)
        else if 1 < indShapes.length then
          match broadcast_shape_iter indShapes with
          | .error e => .error e
          | .ok si => .ok (si, si.length)
        else .ok ([], 0)
      match step with
      | .error e => .error e
      | .ok (shape_ind, ndim_ind) =>
        let step2 : Except Err (Shape × Shape × Nat) :=
          if op.ndim_supp = 0 then
            let shape_reps := if 0 < ndim_ind then size.take (size.length - ndim_ind) else size
            .ok ([], shape_reps, shape_reps.length)
          else
            match op.shape_from_params dist_params (some pshapes) with
            | .error e => .error e
            | .ok shape_supp => .ok (shape_supp, size, size.length)
        match step2 with
        | .error e => .error e
        | .ok (shape_supp, shape_reps, ndim_reps) =>
          let ndim_shape := op.ndim_supp + ndim_ind + ndim_reps
          if ndim_shape = 0 then .ok []
          else .ok (shape_reps ++ shape_ind ++ shape_supp)

/-- Modelled from the spec: constant folding of one isolated shape
expression (the `FunctionGraph` plus `topo_constant_folding` call of
`compute_bcast`, owned by the graph engine, not under `src/`).  A literal
folds to itself, an opaque symbolic scalar does not fold, and a symbolic
maximum folds exactly when both arguments fold. -/
def foldDim : Dim → Option Nat
  | Dim.lit n => some n
  | Dim.sym _ => none
  | Dim.dmax a b =>
    match foldDim a, foldDim b with
    | some x, some y => some (max x y)
    | _, _ => none

/-- Embeds `RandomVariable.compute_bcast` (`op.py` lines 270-293): infer
the output shape, constant-fold each dimension expression in an isolated
shape sub-graph, and tag a dimension broadcastable exactly when comparison
of the folded value with `1` succeeds (`getattr(s, "data", s) == 1`: an
unfolded symbolic expression compares unequal). -/
def RandomVariable.compute_bcast (op : RandomVariable) (dist_params : List Param)
    (size : Shape) : Except Err (List Bool) :=
  match op.infer_shape size dist_params none with
  | .error e => .error e
  | .ok shape => .ok (shape.map (fun s => decide (foldDim s = some 1)))

/-- Modelled from the spec: the fixed ordered catalogue of recognized
numeric dtypes (`all_dtypes` from `aesara.tensor.type`, not under `src/`):
signed and unsigned integers of standard widths, floating point of
standard widths, complex. -/
def all_dtypes : List String :=
  ["int8", "int16", "int32", "int64",
   "uint8", "uint16", "uint32", "uint64",
   "float16", "float32", "float64",
   "complex64", "complex128"]

/-- A dtype argument to `make_node`: either a dtype name or an index into
the `all_dtypes` catalogue. -/
inductive DtypeArg where
  | name : String → DtypeArg
  | idx : Nat → DtypeArg
deriving DecidableEq, Repr

/-- Embeds the dtype-resolution block of `RandomVariable.make_node`
(`op.py` lines 350-361): `dtype = self.dtype or dtype`; the sentinel
`"floatX"` resolves to the configured default float precision; `None` or a
string outside the catalogue raises the `TypeError` dtype error; a string
is converted to its catalogue index (`list.index`, `ValueError` when
absent), an integer indexes the catalogue (`IndexError` when out of
range).  Returns the resolved dtype name together with its catalogue
index. -/
def resolve_dtype (selfDtype : Option String) (dtype : Option DtypeArg)
    (floatX : String) : Except Err (String × Nat) :=
  let dtype0 : Option DtypeArg :=
    match selfDtype with
    | some s => some (.name s)
    | none => dtype
  match dtype0 with
  | none => .error (.typeError "dtype is unspecified")
  | some (.idx i) =>
    match all_dtypes[i]? with
    | some s => .ok (s, i)
    | none => .error .indexError
  | some (.name s) =>
    if s = "floatX" then
      match all_dtypes.findIdx? (fun d => d = floatX) with
      | some i => .ok (floatX, i)
      | none => .error (.valueError "value is not in list")
    else if all_dtypes.contains s then
      match all_dtypes.findIdx? (fun d => d = s) with
      | some i => .ok (s, i)
      | none => .error (.valueError "value is not in list")
    else .error (.typeError "dtype is unspecified")

/-- Modelled from the spec: `normalize_size_param` (from
`aesara.tensor.random.utils`, not under `src/`), section 6: an absent size
normalizes to the canonical empty sequence. -/
def normalize_size_param (size : Option Shape) : Shape := size.getD []

/-- The `Apply` node built by `RandomVariable.make_node`: the op, its
`(size, dtype)` inputs and parameter inputs, and the sample output's
resolved dtype and broadcastable pattern. -/
structure ApplyNode where
  op : RandomVariable
  size : Shape
  dtype_idx : Nat
  dist_params : List Param
  out_dtype : String
  out_bcast : List Bool
deriving DecidableEq, Repr

/-- Embeds `RandomVariable.make_node` (`op.py` lines 311-368): normalize
`size`, reject a generator-state handle outside the recognized state-type
family, compute the broadcastable pattern, resolve the dtype and assemble
the node.  The generator-state handle is abstracted to the validity test
`isinstance(rng.type, RandomType)` actually performed by the code. -/
def RandomVariable.make_node (op : RandomVariable) (floatX : String)
    (rng_is_valid : Bool) (size : Option Shape) (dtype : Option DtypeArg)
    (dist_params : List Param) : Except Err ApplyNode :=
  let size := normalize_size_param size
  if rng_is_valid = false then
    .error (.typeError "The type of rng should be an instance of either RandomGeneratorType or RandomStateType")
  else
    match op.compute_bcast dist_params size with
    | .error e => .error e
    | .ok bcast =>
      match resolve_dtype op.dtype dtype floatX with
      | .error e => .error e
      | .ok (dtypeName, dtype_idx) =>
        .ok ⟨op, size, dtype_idx, dist_params, dtypeName, bcast⟩

/-- A concrete generator-state value (the internal position of the
random-bit generator). -/
abbrev RngState := Nat

/-- A concrete sample as the kernel delivers it: a dtype tag and a value. -/
structure Sample where
  dtype : String
  val : Nat
deriving DecidableEq, Repr

/-- Embeds the size normalization of `RandomVariable.perform` (`op.py`
lines 377-383): `np.size(size) == 0` makes the kernel see `size=None`;
otherwise the kernel gets `tuple(size)`. -/
def normalize_exec_size (size : List Nat) : Option (List Nat) :=
  if size.isEmpty then none else some size

/-- Embeds the output-dtype coercion of `RandomVariable.perform` (`op.py`
lines 394-398): the sample is converted to the node's declared dtype when
the kernel's dtype differs. -/
def cast_sample (out_dtype : String) (s : Sample) : Sample :=
  if s.dtype ≠ out_dtype then ⟨out_dtype, s.val⟩ else s

/-- Embeds `RandomVariable.perform` (`op.py` lines 370-400).  Generator
objects are held in an explicit heap (a list of states indexed by object
identity) so that in-place mutation versus `copy(rng)` is observable: the
in-place path advances the incoming object, the copy path appends a
duplicate and advances the duplicate.  The kernel `rng_fn` consumes a
state, the concrete parameters and the normalized size, and returns the
sample together with the advanced state.  Returns the heap after the call,
the object identity emitted as the rng output, and the sample output. -/
def RandomVariable.perform (op : RandomVariable)
    (rng_fn : RngState → List Nat → Option (List Nat) → Sample × RngState)
    (heap : List RngState) (rngId : Nat) (size : List Nat) (args : List Nat)
    (out_dtype : String) : Except Err (List RngState × Nat × Sample) :=
  match heap[rngId]? with
  | none => .error .indexError
  | some st =>
    let size' := normalize_exec_size size
    let res := rng_fn st args size'
    let smpl := cast_sample out_dtype res.1
    if op.inplace then .ok (heap.set rngId res.2, rngId, smpl)
    else .ok (heap ++ [res.2], heap.length, smpl)

/-- The result of a gradient request for one input: `grad_undefined`
records the op's name, the input position and the explanatory comment. -/
inductive GradResult where
  | undefined : String → Nat → String → GradResult
deriving DecidableEq, Repr

/-- Embeds `RandomVariable.grad` (`op.py` lines 402-408): every input gets
`grad_undefined(self, k, inp, "No gradient defined for random
variables")`. -/
def RandomVariable.grad {α β : Type} (op : RandomVariable) (inputs : List α)
    (output_grads : List β) : List GradResult :=
  (List.range inputs.length).map
    (fun k => GradResult.undefined op.name k "No gradient defined for random variables")

/-- Embeds `RandomVariable.R_op` (`op.py` lines 410-411): one `None` per
evaluation point. -/
def RandomVariable.R_op {α β : Type} (op : RandomVariable) (inputs : List α)
    (eval_points : List β) : List (Option Unit) :=
  eval_points.map (fun _ => none)

/-- Embeds `RandomVariable.__init__` (`op.py` lines 90-143).  Each
constructor argument falls back to the pre-existing class-level attribute
(`getattr`), raising `AttributeError` when neither is available for
`name`, `ndim_supp` or `ndims_params`; `dtype` falls back with default
`None` and `inplace` with default `False`.  When the resolved `inplace` is
true, `destroy_map` is set to declare that output `0` destroys input `0`;
otherwise no `destroy_map` is recorded. -/
def RandomVariable.init (name : Option String) (ndim_supp : Option Nat)
    (ndims_params : Option (List Nat)) (dtype : Option String)
    (inplace : Option Bool) (cls_name : Option String)
    (cls_ndim_supp : Option Nat) (cls_ndims_params : Option (List Nat))
    (cls_dtype : Option String) (cls_inplace : Option Bool) :
    Except Err RandomVariable :=
  match name.orElse (fun _ => cls_name) with
  | none => .error .attributeError
  | some nm =>
    match ndim_supp.orElse (fun _ => cls_ndim_supp) with
    | none => .error .attributeError
    | some ns =>
      match ndims_params.orElse (fun _ => cls_ndims_params) with
      | none => .error .attributeError
      | some ndp =>
        let dt := dtype.orElse (fun _ => cls_dtype)
        let ip := match inplace with
          | some b => b
          | none => cls_inplace.getD false
        .ok { name := nm, ndim_supp := ns, ndims_params := ndp, dtype := dt,
              inplace := ip,
              destroy_map := if ip then some [(0, [0])] else none }

/-- C1: for every distribution with `support_rank = 0` and every non-empty
size specification, the inferred output shape equals the size
specification exactly, for all parameter shapes and for externally
supplied symbolic parameter shapes alike. -/
theorem c1_scalar_size_determines_shape (op : RandomVariable) (size : Shape)
    (dist_params : List Param) (param_shapes : Option (List Shape))
    (h0 : op.ndim_supp = 0) (hs : size ≠ []) :
    op.infer_shape size dist_params param_shapes = .ok size := by
  unfold RandomVariable.infer_shape
  rw [if_pos ⟨h0, List.length_pos.mpr hs⟩]

/-- Witness for C1: a scalar distribution with `size = (3, 4)` and two
mismatched parameter shapes still yields output shape `(3, 4)`. -/
theorem c1_scalar_size_determines_shape_witness :
    (⟨"normal", 0, [0, 0], some "floatX", false, none⟩ : RandomVariable).infer_shape
      [Dim.lit 3, Dim.lit 4] [[Dim.sym 0], [Dim.lit 7]] none
      = .ok [Dim.lit 3, Dim.lit 4] :=
  c1_scalar_size_determines_shape _ _ _ _ rfl (by decide)

/-- C2: the two branches of `default_shape_from_params` disagree for
`ndim_supp = 2`.  With externally supplied parameter shapes the code
returns only the single dimension at position `-ndim_supp` (here `(3,)`),
while the direct-parameters branch returns the trailing `ndim_supp`
dimensions `(3, 4)` that the function's own documentation (a tuple
representing the support shape) and the spec describe. -/
theorem c2_support_shape_divergence :
    default_shape_from_params 2 [[Dim.lit 3, Dim.lit 4]] 0 (some [[Dim.lit 3, Dim.lit 4]])
      = .ok [Dim.lit 3]
    ∧ default_shape_from_params 2 [[Dim.lit 3, Dim.lit 4]] 0 none
      = .ok [Dim.lit 3, Dim.lit 4] :=
  ⟨rfl, rfl⟩

/-- C6 counterexample: a distribution with `support_rank = 1` whose
reference parameter has zero dimensions (fewer than the support rank) does
NOT fail with a shape error during node construction: shape inference
succeeds (another parameter's broadcast batch dimension is silently used
as the support dimension) and `make_node` produces a node.  The
`ValueError` guard sits only on the direct-parameters branch of
`default_shape_from_params`, which node construction never takes because
`_infer_shape` always passes the broadcast `param_shapes`. -/
theorem c6_counterexample_node_built_despite_short_ref_param :
    (⟨"multinomial", 1, [0, 1], some "int64", false, none⟩ : RandomVariable).infer_shape
      [] [[], [Dim.lit 2, Dim.lit 3]] none = .ok [Dim.lit 2, Dim.lit 2]
    ∧ ((⟨"multinomial", 1, [0, 1], some "int64", false, none⟩ : RandomVariable).make_node
        "float64" true (some []) none [[], [Dim.lit 2, Dim.lit 3]]).isOk = true :=
  ⟨rfl, rfl⟩

/-- C6 amended: the fewer-dimensions-than-support-rank check only runs on
the direct-parameters path (`param_shapes` absent), where
`default_shape_from_params` fails with the `ValueError` shape error; node
construction always supplies broadcast parameter shapes, bypasses the
check, and can instead produce a node. -/
theorem c6_amended_shape_error_only_direct_path (ndim_supp : Nat)
    (dist_params : List Param) (rep_param_idx : Nat) (ref : Param)
    (h0 : 0 < ndim_supp) (href : dist_params[rep_param_idx]? = some ref)
    (hlt : ref.length < ndim_supp) :
    default_shape_from_params ndim_supp dist_params rep_param_idx none
      = .error (.valueError "Reference parameter does not match the expected dimensions") := by
  unfold default_shape_from_params
  rw [if_neg (Nat.pos_iff_ne_zero.mp h0)]
  rw [href]
  simp only [if_pos hlt]

/-- Witness for the amended C6: one scalar reference parameter with
declared support rank 1 makes the direct-parameters branch raise the shape
error. -/
theorem c6_amended_shape_error_only_direct_path_witness :
    default_shape_from_params 1 [[]] 0 none
      = .error (.valueError "Reference parameter does not match the expected dimensions") :=
  c6_amended_shape_error_only_direct_path 1 [[]] 0 [] (by decide) rfl (by decide)

/-- C3: for every node construction, an output dimension is tagged
broadcastable if and only if its shape expression constant-folds to the
literal `1`; dimensions that do not fold are tagged non-broadcastable. -/
theorem c3_bcast_iff_folds_to_one (op : RandomVariable) (size : Shape)
    (dist_params : List Param) (shape : Shape) (bcast : List Bool)
    (hshape : op.infer_shape size dist_params none = .ok shape)
    (hbcast : op.compute_bcast dist_params size = .ok bcast) :
    bcast.length = shape.length ∧
    ∀ (i : Nat) (hi : i < shape.length) (hb : i < bcast.length),
      bcast[i] = true ↔ foldDim shape[i] = some 1 := by
  unfold RandomVariable.compute_bcast at hbcast
  rw [hshape] at hbcast
  have hb : bcast = shape.map (fun s => decide (foldDim s = some 1)) := by
    cases hbcast
    rfl
  subst hb
  refine ⟨List.length_map _ _, ?_⟩
  intro i hi hb
  simp [List.getElem_map]

/-- Witness for C3: a parameter of shape `(1, m)` with unknown `m` gives
the inferred shape `(1, m)`; the first axis folds to the literal `1` and
is tagged broadcastable, the second does not fold and is tagged
non-broadcastable. -/
theorem c3_bcast_iff_folds_to_one_witness :
    ([true, false] : List Bool).length = ([Dim.lit 1, Dim.sym 0] : Shape).length ∧
    ∀ (i : Nat) (hi : i < ([Dim.lit 1, Dim.sym 0] : Shape).length)
      (hb : i < ([true, false] : List Bool).length),
      ([true, false] : List Bool)[i] = true
        ↔ foldDim (([Dim.lit 1, Dim.sym 0] : Shape)[i]) = some 1 :=
  c3_bcast_iff_folds_to_one ⟨"normal", 0, [0], some "floatX", false, none⟩ []
    [[Dim.lit 1, Dim.sym 0]] [Dim.lit 1, Dim.sym 0] [true, false] rfl rfl

/-- Unfolding equation of `make_node` for a valid generator-state
handle. -/
theorem make_node_true_eq (op : RandomVariable) (fX : String) (size : Option Shape)
    (d : Option DtypeArg) (params : List Param) :
    op.make_node fX true size d params =
      match op.compute_bcast params (normalize_size_param size) with
      | .error e => .error e
      | .ok bcast =>
        match resolve_dtype op.dtype d fX with
        | .error e => .error e
        | .ok (dtypeName, dtype_idx) =>
          .ok ⟨op, normalize_size_param size, dtype_idx, params, dtypeName, bcast⟩ := rfl

/-- Unfolding equation of `make_node` for an invalid generator-state
handle: the `TypeError` is raised before anything else happens. -/
theorem make_node_false_eq (op : RandomVariable) (fX : String) (size : Option Shape)
    (d : Option DtypeArg) (params : List Param) :
    op.make_node fX false size d params
      = .error (.typeError "The type of rng should be an instance of either RandomGeneratorType or RandomStateType") := rfl

/-- C4: dtype resolution order in `make_node`: the descriptor's declared
dtype, when set, takes precedence over any caller-supplied dtype; the
sentinel `"floatX"` resolves to the configured default float precision;
with neither descriptor nor caller dtype, construction fails with the
dtype error; and a resolved dtype name outside the recognized catalogue
also fails with the dtype error. -/
theorem c4_dtype_resolution_order :
    (∀ (op : RandomVariable) (fX : String) (rv : Bool) (size : Option Shape)
       (params : List Param) (s : String) (d1 d2 : Option DtypeArg),
       op.dtype = some s →
       op.make_node fX rv size d1 params = op.make_node fX rv size d2 params)
    ∧ (∀ (op : RandomVariable) (fX : String) (rv : Bool) (size : Option Shape)
         (d : Option DtypeArg) (params : List Param) (node : ApplyNode),
         op.dtype = some "floatX" →
         op.make_node fX rv size d params = .ok node → node.out_dtype = fX)
    ∧ (∀ (op : RandomVariable) (fX : String) (size : Option Shape)
         (params : List Param) (bcast : List Bool),
         op.dtype = none →
         op.compute_bcast params (normalize_size_param size) = .ok bcast →
         op.make_node fX true size none params
           = .error (.typeError "dtype is unspecified"))
    ∧ (∀ (op : RandomVariable) (fX : String) (size : Option Shape)
         (params : List Param) (bcast : List Bool) (s : String) (d : Option DtypeArg),
         op.dtype = some s → s ≠ "floatX" → all_dtypes.contains s = false →
         op.compute_bcast params (normalize_size_param size) = .ok bcast →
         op.make_node fX true size d params
           = .error (.typeError "dtype is unspecified")) := by
  refine ⟨?_, ?_, ?_, ?_⟩
  · intro op fX rv size params s d1 d2 h
    cases rv
    · rfl
    · rw [make_node_true_eq, make_node_true_eq, h]
      rfl
  · intro op fX rv size d params node h hmk
    cases rv
    · rw [make_node_false_eq] at hmk
      exact absurd hmk (by simp)
    · rw [make_node_true_eq] at hmk
      cases hcb : op.compute_bcast params (normalize_size_param size) with
      | error e => rw [hcb] at hmk; exact absurd hmk (by simp)
      | ok bcast =>
        rw [hcb, h] at hmk
        simp only [resolve_dtype, if_true] at hmk
        cases hf : all_dtypes.findIdx? (fun dd => dd = fX) with
        | none => rw [hf] at hmk; exact absurd hmk (by simp)
        | some i =>
          rw [hf] at hmk
          injection hmk with h2
          subst h2
          rfl
  · intro op fX size params bcast h hcb
    rw [make_node_true_eq, hcb, h]
    rfl
  · intro op fX size params bcast s d h hne hcont hcb
    rw [make_node_true_eq, hcb, h]
    simp only [resolve_dtype]
    rw [if_neg hne, if_neg (by rw [hcont]; exact Bool.false_ne_true)]

/-- Witness for C4: a descriptor without a declared dtype and no
caller-supplied dtype fails with the dtype error. -/
theorem c4_dtype_resolution_order_witness :
    (⟨"normal", 0, [0], none, false, none⟩ : RandomVariable).make_node
      "float32" true (some [Dim.lit 2]) none []
      = .error (.typeError "dtype is unspecified") :=
  c4_dtype_resolution_order.2.2.1 ⟨"normal", 0, [0], none, false, none⟩
    "float32" (some [Dim.lit 2]) [] [false] rfl rfl

/-- Catalogue sanity: every entry of `all_dtypes` is found again at its
own index by `list.index`, no entry is the sentinel `"floatX"`, and every
entry passes the membership test. -/
theorem all_dtypes_entry_lookup :
    ∀ i : Fin all_dtypes.length,
      all_dtypes.findIdx? (fun d => d = all_dtypes.get i) = some i.val
      ∧ all_dtypes.get i ≠ "floatX"
      ∧ all_dtypes.contains (all_dtypes.get i) = true := by decide

/-- C8: referencing a catalogue dtype by name and referencing it by its
catalogue index produce identical constructed nodes (name-to-index and
index-to-name resolution round-trip to the same catalogue entry). -/
theorem c8_dtype_name_index_round_trip (i : Nat) (hi : i < all_dtypes.length)
    (op : RandomVariable) (fX : String) (rv : Bool) (size : Option Shape)
    (params : List Param) (hd : op.dtype = none) :
    op.make_node fX rv size (some (.name (all_dtypes.get ⟨i, hi⟩))) params
      = op.make_node fX rv size (some (.idx i)) params := by
  have h := all_dtypes_entry_lookup ⟨i, hi⟩
  have hres : resolve_dtype op.dtype (some (.name (all_dtypes.get ⟨i, hi⟩))) fX
      = resolve_dtype op.dtype (some (.idx i)) fX := by
    rw [hd]
    simp only [resolve_dtype]
    rw [if_neg h.2.1, if_pos h.2.2, h.1]
    have hget : all_dtypes[i]? = some (all_dtypes.get ⟨i, hi⟩) :=
      List.getElem?_eq_getElem hi
    rw [hget]
  cases rv
  · rfl
  · rw [make_node_true_eq, make_node_true_eq, hres]

/-- Witness for C8: the first catalogue entry referenced by name and by
index 0 build identical nodes. -/
theorem c8_dtype_name_index_round_trip_witness :
    (⟨"normal", 0, [0], none, false, none⟩ : RandomVariable).make_node
      "float32" true (some [Dim.lit 2]) (some (.name "int8")) [[Dim.lit 1]]
      = (⟨"normal", 0, [0], none, false, none⟩ : RandomVariable).make_node
          "float32" true (some [Dim.lit 2]) (some (.idx 0)) [[Dim.lit 1]] :=
  c8_dtype_name_index_round_trip 0 (by decide) ⟨"normal", 0, [0], none, false, none⟩
    "float32" true (some [Dim.lit 2]) [[Dim.lit 1]] rfl

/-- C5: with the copy policy (`inplace = False`), `perform` duplicates the
incoming generator object and advances the duplicate: the incoming
object's state is unchanged after the call, the sample is the kernel's
first-call output for the original state, and a second execution fed the
same original object reproduces the same sample. -/
theorem c5_copy_policy_preserves_state (op : RandomVariable)
    (f : RngState → List Nat → Option (List Nat) → Sample × RngState)
    (heap : List RngState) (rngId : Nat) (size args : List Nat) (od : String)
    (st : RngState) (hip : op.inplace = false) (hst : heap[rngId]? = some st) :
    ∃ heap2 outId smpl,
      op.perform f heap rngId size args od = .ok (heap2, outId, smpl)
      ∧ heap2[rngId]? = some st
      ∧ smpl = cast_sample od (f st args (normalize_exec_size size)).1
      ∧ op.perform f heap2 rngId size args od
          = .ok (heap2 ++ [(f st args (normalize_exec_size size)).2], heap2.length, smpl) := by
  have hlt : rngId < heap.length := by
    rcases List.getElem?_eq_some.mp hst with ⟨h, _⟩
    exact h
  have hst2 : (heap ++ [(f st args (normalize_exec_size size)).2])[rngId]? = some st := by
    rw [List.getElem?_append, if_pos hlt]
    exact hst
  refine ⟨heap ++ [(f st args (normalize_exec_size size)).2], heap.length,
    cast_sample od (f st args (normalize_exec_size size)).1, ?_, hst2, rfl, ?_⟩
  · unfold RandomVariable.perform
    rw [hst]
    simp [hip]
  · unfold RandomVariable.perform
    rw [hst2]
    simp [hip]

/-- A deterministic sampling-kernel stub for execution-time witnesses: the
sample value records the state and the first argument, and the state
advances by one. -/
def stub_rng_fn : RngState → List Nat → Option (List Nat) → Sample × RngState :=
  fun st args _ => (⟨"float64", st * 10 + args.headD 0⟩, st + 1)

/-- Witness for C5: one copy-policy execution on a generator object at
state 7 leaves the object at state 7, returns the kernel's first-call
output, and a repeat execution reproduces it. -/
theorem c5_copy_policy_preserves_state_witness :
    ∃ heap2 outId smpl,
      RandomVariable.perform ⟨"normal", 0, [0], some "float64", false, none⟩
        stub_rng_fn [7] 0 [] [] "float64" = .ok (heap2, outId, smpl)
      ∧ heap2[0]? = some 7
      ∧ smpl = cast_sample "float64" (stub_rng_fn 7 [] (normalize_exec_size [])).1
      ∧ RandomVariable.perform ⟨"normal", 0, [0], some "float64", false, none⟩
          stub_rng_fn heap2 0 [] [] "float64"
          = .ok (heap2 ++ [(stub_rng_fn 7 [] (normalize_exec_size [])).2], heap2.length, smpl) :=
  c5_copy_policy_preserves_state ⟨"normal", 0, [0], some "float64", false, none⟩
    stub_rng_fn [7] 0 [] [] "float64" 7 rfl rfl

/-- C7: `perform` normalizes the concrete size before invoking the
kernel: an empty size sequence is passed to the kernel as the no-explicit-
size marker, a non-empty one as the tuple itself, and the emitted sample
is the kernel's output at exactly that normalized size. -/
theorem c7_exec_size_normalization (op : RandomVariable)
    (f : RngState → List Nat → Option (List Nat) → Sample × RngState)
    (heap : List RngState) (rngId : Nat) (size args : List Nat) (od : String)
    (st : RngState) (hst : heap[rngId]? = some st) :
    normalize_exec_size [] = none
    ∧ (size ≠ [] → normalize_exec_size size = some size)
    ∧ ∃ heap2 outId, op.perform f heap rngId size args od
        = .ok (heap2, outId, cast_sample od (f st args (normalize_exec_size size)).1) := by
  refine ⟨rfl, ?_, ?_⟩
  · intro h
    cases size with
    | nil => exact absurd rfl h
    | cons a l => rfl
  · cases hip : op.inplace
    · exact ⟨heap ++ [(f st args (normalize_exec_size size)).2], heap.length, by
        unfold RandomVariable.perform
        rw [hst]
        simp [hip]⟩
    · exact ⟨heap.set rngId (f st args (normalize_exec_size size)).2, rngId, by
        unfold RandomVariable.perform
        rw [hst]
        simp [hip]⟩

/-- Witness for C7: with concrete size `(3,)` the kernel sees
`some [3]`, with an empty size it sees the no-size marker. -/
theorem c7_exec_size_normalization_witness :
    normalize_exec_size [] = none
    ∧ ([3] ≠ [] → normalize_exec_size [3] = some [3])
    ∧ ∃ heap2 outId,
        RandomVariable.perform ⟨"normal", 0, [0], some "float64", true, none⟩
          stub_rng_fn [5] 0 [3] [9] "float32"
          = .ok (heap2, outId, cast_sample "float32" (stub_rng_fn 5 [9] (normalize_exec_size [3])).1) :=
  c7_exec_size_normalization ⟨"normal", 0, [0], some "float64", true, none⟩
    stub_rng_fn [5] 0 [3] [9] "float32" 5 rfl

/-- C9: a gradient request on a draw node returns the gradient-undefined
marker for every input (one entry per input, no exception), and a
directional-derivative request returns the undefined marker (`None`) for
every evaluation point. -/
theorem c9_grad_and_rop_undefined {A B C : Type} (op : RandomVariable)
    (inputs : List A) (output_grads : List B) (eval_points : List C) :
    (op.grad inputs output_grads).length = inputs.length
    ∧ (∀ (k : Nat) (hk : k < (op.grad inputs output_grads).length),
        (op.grad inputs output_grads)[k]
          = GradResult.undefined op.name k "No gradient defined for random variables")
    ∧ (op.R_op inputs eval_points).length = eval_points.length
    ∧ ∀ r ∈ op.R_op inputs eval_points, r = none := by
  refine ⟨?_, ?_, ?_, ?_⟩
  · simp [RandomVariable.grad]
  · intro k hk
    simp [RandomVariable.grad]
  · simp [RandomVariable.R_op]
  · intro r hr
    unfold RandomVariable.R_op at hr
    rcases List.mem_map.mp hr with ⟨a, ha, h⟩
    exact h.symm

/-- Witness for C9: a two-input node reports gradient-undefined for both
inputs and `None` for the single evaluation point. -/
theorem c9_grad_and_rop_undefined_witness :
    ((⟨"normal", 0, [0, 0], some "floatX", false, none⟩ : RandomVariable).grad
        [10, 20] ([] : List Nat)).length = ([10, 20] : List Nat).length
    ∧ (∀ (k : Nat)
        (hk : k < ((⟨"normal", 0, [0, 0], some "floatX", false, none⟩ : RandomVariable).grad
          [10, 20] ([] : List Nat)).length),
        ((⟨"normal", 0, [0, 0], some "floatX", false, none⟩ : RandomVariable).grad
            [10, 20] ([] : List Nat))[k]
          = GradResult.undefined "normal" k "No gradient defined for random variables")
    ∧ ((⟨"normal", 0, [0, 0], some "floatX", false, none⟩ : RandomVariable).R_op
        [10, 20] [5]).length = ([5] : List Nat).length
    ∧ ∀ r ∈ (⟨"normal", 0, [0, 0], some "floatX", false, none⟩ : RandomVariable).R_op
        [10, 20] [5], r = none :=
  c9_grad_and_rop_undefined ⟨"normal", 0, [0, 0], some "floatX", false, none⟩
    [10, 20] ([] : List Nat) [5]

/-- C10: `__init__` records the destruction map exactly when the in-place
policy is enabled: resolved `inplace = True` sets `destroy_map` declaring
that output 0 destroys input 0; with the copy policy (`inplace` passed as
`False`, or left unset with no class-level override) no destruction map is
recorded. -/
theorem c10_destroy_map_policy (name : Option String) (ndim_supp : Option Nat)
    (ndims_params : Option (List Nat)) (dtype : Option String)
    (inplace : Option Bool) (cls_name : Option String) (cls_ndim_supp : Option Nat)
    (cls_ndims_params : Option (List Nat)) (cls_dtype : Option String)
    (cls_inplace : Option Bool) (op : RandomVariable)
    (hok : RandomVariable.init name ndim_supp ndims_params dtype inplace cls_name
      cls_ndim_supp cls_ndims_params cls_dtype cls_inplace = .ok op) :
    (op.destroy_map = some [(0, [0])] ↔ op.inplace = true)
    ∧ (inplace = some true → op.destroy_map = some [(0, [0])])
    ∧ (inplace = some false → op.destroy_map = none)
    ∧ (inplace = none → cls_inplace.getD false = false → op.destroy_map = none) := by
  unfold RandomVariable.init at hok
  cases hn : name.orElse (fun _ => cls_name) <;> rw [hn] at hok
  · exact absurd hok (by simp)
  cases hs : ndim_supp.orElse (fun _ => cls_ndim_supp) <;> rw [hs] at hok
  · exact absurd hok (by simp)
  cases hp : ndims_params.orElse (fun _ => cls_ndims_params) <;> rw [hp] at hok
  · exact absurd hok (by simp)
  injection hok with h2
  subst h2
  cases inplace with
  | some b =>
    cases b
    · exact ⟨by simp, by intro h; simp at h, by intro h; rfl, by intro h; simp at h⟩
    · exact ⟨by simp, by intro h; rfl, by intro h; simp at h, by intro h; simp at h⟩
  | none =>
    cases hci : cls_inplace.getD false
    · exact ⟨by simp, by intro h; simp at h, by intro h; simp at h,
        by intro h1 h2; rfl⟩
    · exact ⟨by simp, by intro h; simp at h, by intro h; simp at h,
        by intro h1 h2; simp at h2⟩

/-- Witness for C10: constructing with `inplace = True` records the
destruction map `(0, [0])`; the same construction with `inplace` unset
records none. -/
theorem c10_destroy_map_policy_witness :
    ((⟨"normal", 0, [0], some "floatX", true, some [(0, [0])]⟩ : RandomVariable).destroy_map
        = some [(0, [0])]
      ↔ (⟨"normal", 0, [0], some "floatX", true, some [(0, [0])]⟩ : RandomVariable).inplace = true)
    ∧ (some true = some true
        → (⟨"normal", 0, [0], some "floatX", true, some [(0, [0])]⟩ : RandomVariable).destroy_map
          = some [(0, [0])])
    ∧ (some true = some false
        → (⟨"normal", 0, [0], some "floatX", true, some [(0, [0])]⟩ : RandomVariable).destroy_map
          = none)
    ∧ ((some true : Option Bool) = none → (none : Option Bool).getD false = false
        → (⟨"normal", 0, [0], some "floatX", true, some [(0, [0])]⟩ : RandomVariable).destroy_map
          = none) :=
  c10_destroy_map_policy (some "normal") (some 0) (some [0]) (some "floatX")
    (some true) none none none none none
    ⟨"normal", 0, [0], some "floatX", true, some [(0, [0])]⟩ rfl
